import Mathlib

/-!
Verification of the flashlight configuration-synchronization engine
(package `config` of the lantern repository) against its specification.

The Go sources are shallowly embedded: Go pointer fields become `Option`,
slices become `List`, `map[string]T` becomes an association list, and the
external library calls (gzip decompression, YAML unmarshalling, the sort of
fronted servers, `globals.SetTrustedCAs`) become explicit function
parameters, since those packages are outside the verified sources.
Machine integers stay well inside the int64 range everywhere they occur, so
they are modelled by `Int` without wrap-around.
-/

namespace Lantern

/-- Opaque model of the external type fronted.Masquerade (package
getlantern/fronted, outside the verified sources); the config code never
inspects its fields. -/
structure Masquerade where
  Domain : String
deriving DecidableEq, Repr

/-- Opaque model of the external type client.ChainedServerInfo (package
flashlight/client is not among the verified sources); the config code never
inspects its fields. -/
structure ChainedServerInfo where
  Addr : String
deriving DecidableEq, Repr

/-- Modelled from the usages in the verified sources: the literal
client.FrontedServerInfo built by the defaulting code names exactly these
fields. -/
structure FrontedServerInfo where
  Host : String
  Port : Int
  PoolSize : Int
  MasqueradeSet : String
  MaxMasquerades : Int
  QOS : Int
  Weight : Int
deriving DecidableEq, Repr

/-- Modelled from the spec: the client sub-configuration (package
flashlight/client is not among the verified sources) carries the fronted
relay servers, the chained servers and the named masquerade sets; the two
Go maps become association lists. -/
structure ClientConfig where
  FrontedServers : List FrontedServerInfo
  ChainedServers : List (String × ChainedServerInfo)
  MasqueradeSets : List (String × List Masquerade)
deriving DecidableEq, Repr

/-- Model of proxiedsites.Delta: additive/subtractive delta over the cloud
proxied-site list. -/
structure ProxiedSitesDelta where
  Additions : List String
  Deletions : List String
deriving DecidableEq, Repr

/-- Model of proxiedsites.Config: delta plus base cloud list of proxied
sites; the Go Delta field is a pointer. -/
structure ProxiedSitesConfig where
  Delta : Option ProxiedSitesDelta
  Cloud : List String
deriving DecidableEq, Repr

/-- CA represents a certificate authority (config.go). -/
structure CA where
  CommonName : String
  Cert : String
deriving DecidableEq, Repr

/-- Modelled from the usages in the verified sources: statreporter.Config,
of which only the StatshubAddr field is read or written by the config
code. -/
structure StatreporterConfig where
  StatshubAddr : String
deriving DecidableEq, Repr

/-- Opaque model of server.ServerConfig (package flashlight/server is not
among the verified sources); the config code never inspects its fields. -/
structure ServerConfig where
  Unused : Unit
deriving DecidableEq, Repr

/-- Config, the in-memory representation of lantern.yaml (config.go).
Pointer-typed fields are `Option`; the TrustedCAs slice is a `List`. -/
structure Config where
  Version : Int
  CloudConfig : String
  CloudConfigCA : String
  Addr : String
  Role : String
  InstanceId : String
  CpuProfile : String
  MemProfile : String
  UIAddr : String
  AutoReport : Option Bool
  AutoLaunch : Option Bool
  Stats : Option StatreporterConfig
  Server : Option ServerConfig
  Client : Option ClientConfig
  ProxiedSites : Option ProxiedSitesConfig
  TrustedCAs : List CA
deriving DecidableEq, Repr

/-- cloudConfig, the in-memory representation of cloud.yaml (cloud.go):
Client and ProxiedSites are pointers, hence `Option`. -/
structure cloudConfig where
  Client : Option ClientConfig
  ProxiedSites : Option ProxiedSitesConfig
  TrustedCAs : List CA
deriving DecidableEq, Repr

/-- mergedConfig (config.go): deep-copies the local Config (value copy
here), then overwrites the fronted servers, chained servers, masquerade
sets, proxied sites and trusted CAs from the cloud snapshot.  The Go code
dereferences merged.Client and cloud.Client unconditionally, so a nil
Client on either side panics; that case is `none`. -/
def mergedConfig (localCfg : Config) (cloudCfg : cloudConfig) : Option Config :=
  match localCfg.Client, cloudCfg.Client with
  | some lc, some cc =>
      some { localCfg with
              Client := some { lc with
                                FrontedServers := cc.FrontedServers,
                                ChainedServers := cc.ChainedServers,
                                MasqueradeSets := cc.MasqueradeSets },
              ProxiedSites := cloudCfg.ProxiedSites,
              TrustedCAs := cloudCfg.TrustedCAs }
  | _, _ => none

/-- The two atomic slots (localCfg, cloudCfg) that mergedConfig reads. -/
structure SlotState where
  localCfg : Config
  cloudCfg : cloudConfig
deriving DecidableEq, Repr

/-- State-passing form of mergedConfig: its Go body only Loads the two
atomic slots and never Stores either, so the slot state passes through
unchanged. -/
def mergedConfigRun (s : SlotState) : Option Config × SlotState :=
  (mergedConfig s.localCfg s.cloudCfg, s)

/-- The tuple of merged-config fields that the fixed precedence table
sources from the local Config: role, addresses, instance id, profiling,
UI address and stats. -/
def localPart (c : Config) :
    String × String × String × String × String × String × Option StatreporterConfig :=
  (c.Role, c.Addr, c.UIAddr, c.InstanceId, c.CpuProfile, c.MemProfile, c.Stats)

/-- The tuple of merged-config fields that the fixed precedence table
sources from the cloud snapshot: fronted relay servers, chained servers,
masquerade sets, proxied sites and trusted CAs. -/
def cloudPart (c : Config) :
    Option (List FrontedServerInfo × List (String × ChainedServerInfo) ×
      List (String × List Masquerade)) × Option ProxiedSitesConfig × List CA :=
  ((c.Client).map (fun cc => (cc.FrontedServers, cc.ChainedServers, cc.MasqueradeSets)),
   c.ProxiedSites, c.TrustedCAs)

/-- The response header carrying the validation token (constant etag in
cloud.go): X-Lantern-Etag. -/
def etag : String := "X-Lantern-Etag"

/-- The request header carrying the cached validation token (constant
ifNoneMatch in the source): X-Lantern-If-None-Match. -/
def ifNoneMatch : String := "X-Lantern-If-None-Match"

/-- lastCloudConfigETag, the per-URL map of last seen validation tokens,
as an association list. -/
def EtagMap : Type := List (String × String)

instance : DecidableEq EtagMap := by
  unfold EtagMap
  exact inferInstance

/-- Go map read m[url]: the zero value "" when the key is absent. -/
def etagGet (m : EtagMap) (url : String) : String :=
  match m with
  | [] => ""
  | (k, v) :: rest => if k = url then v else etagGet rest url

/-- Go map write m[url] = v. -/
def etagSet (m : EtagMap) (url v : String) : EtagMap :=
  match m with
  | [] => [(url, v)]
  | (k, w) :: rest => if k = url then (k, v) :: rest else (k, w) :: etagSet rest url v

/-- An HTTP response as fetchCloudConfig observes it: the status code, the
value of the X-Lantern-Etag header (Header.Get returns "" when absent)
and the raw body bytes. -/
structure HttpResponse where
  StatusCode : Int
  etagHeader : String
  Body : List Nat
deriving DecidableEq, Repr

/-- Everything one call of fetchCloudConfig does that the rest of the
program can observe: the headers it put on the request, the returned
(bytes?, error) pair, and the ETag cache it leaves behind.
ok none models the (nil, nil) return on 304. -/
structure FetchResult where
  requestHeaders : List (String × String)
  outcome : Except String (Option (List Nat))
  cache : EtagMap

/-- Header lookup on the request-header list built by fetchCloudConfig. -/
def lookupHeader (hs : List (String × String)) (k : String) : Option String :=
  (hs.find? (fun p => p.fst == k)).map (fun p => p.snd)

/-- fetchCloudConfig (cloud.go).  The HTTP round trip is data: respOpt is
none on a transport error and some resp otherwise; gunzip models
gzip.NewReader + ReadAll, returning none when the body is not valid gzip.
The order of effects follows the source: the conditional request header is
set from the cache; 304 returns (nil, nil) and a non-200/304 status
returns an error, both before the cache is touched; on 200 the cache entry
for the URL is overwritten with the response's token and only then is the
body decompressed. -/
def fetchCloudConfig (gunzip : List Nat → Option (List Nat)) (url : String)
    (respOpt : Option HttpResponse) (cache : EtagMap) : FetchResult :=
  let reqHeaders : List (String × String) :=
    if etagGet cache url ≠ "" then [(ifNoneMatch, etagGet cache url)] else []
  match respOpt with
  | none =>
      { requestHeaders := reqHeaders,
        outcome := Except.error ("Unable to fetch cloud config at " ++ url),
        cache := cache }
  | some resp =>
      if resp.StatusCode = 304 then
        { requestHeaders := reqHeaders, outcome := Except.ok none, cache := cache }
      else if resp.StatusCode ≠ 200 then
        { requestHeaders := reqHeaders,
          outcome := Except.error "Unexpected response status",
          cache := cache }
      else
        let cache2 := etagSet cache url resp.etagHeader
        match gunzip resp.Body with
        | none =>
            { requestHeaders := reqHeaders,
              outcome := Except.error "Unable to open gzip reader",
              cache := cache2 }
        | some b =>
            { requestHeaders := reqHeaders, outcome := Except.ok (some b), cache := cache2 }

/-- emptyCloudConfig (cloud poll source): all collections present but
empty, the proxied-sites config holding an empty delta. -/
def emptyCloudConfig : cloudConfig :=
  { Client := some { FrontedServers := [], ChainedServers := [], MasqueradeSets := [] },
    ProxiedSites := some { Delta := some { Additions := [], Deletions := [] }, Cloud := [] },
    TrustedCAs := [] }

/-- fromBytes (cloud poll source): yaml.Unmarshal of the fetched bytes
into the given pre-initialized cloudConfig; yamlUnmarshal models the
external YAML library, returning none exactly when the document is
malformed. -/
def fromBytes (yamlUnmarshal : cloudConfig → List Nat → Option cloudConfig)
    (updated : cloudConfig) (updateBytes : List Nat) : Option cloudConfig :=
  yamlUnmarshal updated updateBytes

/-- The package-level cells one cloudPoll call reads or writes: the
localCfg and cloudCfg atomic slots and the ETag map. -/
structure PollState where
  localCfg : Config
  cloudCfg : cloudConfig
  lastCloudConfigETag : EtagMap
deriving DecidableEq

/-- The observable effect of one cloudPoll call: the state it leaves, and
whether it signalled cloudConfigChanged (true exactly when it stored a new
cloud snapshot); requestHeaders echoes the fetch for the end-to-end
scenario. -/
structure PollResult where
  state : PollState
  signaled : Bool
  requestHeaders : List (String × String)

/-- cloudPoll (cloud poll source): fetches the document at the local
config's CloudConfig URL; on fetch error or a nil (unchanged) body it
returns without storing; otherwise it parses the bytes over
emptyCloudConfig, and on parse failure returns without storing; on success
it sorts the fronted servers (sortFrontedServers models the external
Client.SortFrontedServers), stores the new snapshot in the cloudCfg slot
and signals cloudConfigChanged. -/
def cloudPoll (gunzip : List Nat → Option (List Nat))
    (yamlUnmarshal : cloudConfig → List Nat → Option cloudConfig)
    (sortFrontedServers : ClientConfig → ClientConfig)
    (respOpt : Option HttpResponse) (s : PollState) : PollResult :=
  let cfg := s.localCfg
  let fr := fetchCloudConfig gunzip cfg.CloudConfig respOpt s.lastCloudConfigETag
  let s2 : PollState := { s with lastCloudConfigETag := fr.cache }
  match fr.outcome with
  | Except.error _ => { state := s2, signaled := false, requestHeaders := fr.requestHeaders }
  | Except.ok none => { state := s2, signaled := false, requestHeaders := fr.requestHeaders }
  | Except.ok (some b) =>
      match fromBytes yamlUnmarshal emptyCloudConfig b with
      | none => { state := s2, signaled := false, requestHeaders := fr.requestHeaders }
      | some newCfg =>
          let newCfg2 : cloudConfig :=
            { newCfg with Client := newCfg.Client.map sortFrontedServers }
          { state := { s2 with cloudCfg := newCfg2 },
            signaled := true,
            requestHeaders := fr.requestHeaders }

/-- CloudConfigPollInterval = 1 * time.Minute, in nanoseconds (a Go
time.Duration is an int64 count of nanoseconds). -/
def CloudConfigPollInterval : Int := 60 * 1000000000

/-- cloudPollSleepTime (cloud.go): interval/2 + rand.Int63n(interval),
in nanoseconds; r stands for the value drawn by rand.Int63n, whose
contract is 0 ≤ r < interval. -/
def cloudPollSleepTime (r : Int) : Int :=
  CloudConfigPollInterval / 2 + r

/-- TrustedCACerts (config.go): the PEM certs of the trusted CAs. -/
def Config.TrustedCACerts (cfg : Config) : List String :=
  cfg.TrustedCAs.map (fun ca => ca.Cert)

/-- Modelled from the spec: the dependent-subsystem globals that
updateGlobals propagates into — the instance id and the trusted CAs
(package flashlight/globals is not among the verified sources). -/
structure Globals where
  InstanceId : String
  trustedCAs : List String
deriving DecidableEq, Repr

/-- updateGlobals (config.go): sets globals.InstanceId from the merged
config, then calls globals.SetTrustedCAs with the PEM certs; setCAsOk
models whether that external call succeeds (its failure condition lives in
the flashlight/globals package, outside the verified sources).  On failure
the error is returned after the instance id was already set. -/
def updateGlobals (setCAsOk : List String → Bool) (g : Globals) (cfg : Config) :
    Globals × Option String :=
  let g2 : Globals := { g with InstanceId := cfg.InstanceId }
  if setCAsOk cfg.TrustedCACerts then
    ({ g2 with trustedCAs := cfg.TrustedCACerts }, none)
  else
    (g2, some "Unable to configure trusted CAs")

/-- The two change signals the Run loop selects on: a new local config
from the yamlconf manager, or the cloudConfigChanged signal. -/
inductive RunSignal where
  | localNext (next : Config)
  | cloudChanged
deriving DecidableEq, Repr

/-- The state the Run loop reads and writes: the two snapshot slots and
the globals it propagates into. -/
structure RunState where
  localCfg : Config
  cloudCfg : cloudConfig
  globals : Globals
deriving DecidableEq, Repr

/-- What one iteration of Run's for/select loop can do: publish the merged
config to the update handler and loop again, return an error (ending Run),
or panic on a nil Client dereference inside mergedConfig. -/
inductive RunStepResult where
  | looped (s : RunState) (publishedCfg : Config)
  | returned (err : String) (s : RunState)
  | panicked (s : RunState)
deriving DecidableEq, Repr

/-- True exactly when the iteration made Run return, terminating the
loop. -/
def RunStepResult.isReturned : RunStepResult → Bool
  | RunStepResult.returned _ _ => true
  | _ => false

/-- True exactly when the iteration invoked the update handler. -/
def RunStepResult.published : RunStepResult → Bool
  | RunStepResult.looped _ _ => true
  | _ => false

/-- The effect of the received signal on the slots: a local change stores
the next local config, the cloud signal itself stores nothing (cloudPoll
already stored the cloud slot before signalling). -/
def applySignal (s : RunState) : RunSignal → RunState
  | RunSignal.localNext next => { s with localCfg := next }
  | RunSignal.cloudChanged => s

/-- One iteration of Run (config.go): receive a signal, recompute the
merged config, call updateGlobals — and if that fails, return the error,
ending Run — otherwise hand the merged config to the update handler and
loop. -/
def runStep (setCAsOk : List String → Bool) (s : RunState) (sig : RunSignal) :
    RunStepResult :=
  let s1 := applySignal s sig
  match mergedConfig s1.localCfg s1.cloudCfg with
  | none => RunStepResult.panicked s1
  | some cfg =>
      let gr := updateGlobals setCAsOk s1.globals cfg
      let s2 : RunState := { s1 with globals := gr.fst }
      match gr.snd with
      | some e => RunStepResult.returned e s2
      | none => RunStepResult.looped s2 cfg

/-- applyClientDefaults (config.go): AutoReport defaults to true and
AutoLaunch to false when unset. -/
def Config.applyClientDefaults (cfg : Config) : Config :=
  let cfg2 := match cfg.AutoReport with
    | none => { cfg with AutoReport := some true }
    | some _ => cfg
  match cfg2.AutoLaunch with
  | none => { cfg2 with AutoLaunch := some false }
  | some _ => cfg2

/-- First statement of ApplyDefaults (config.go): an empty Role defaults
to "client". -/
def Config.defaultRole (cfg : Config) : Config :=
  if cfg.Role = "" then { cfg with Role := "client" } else cfg

/-- Second statement of ApplyDefaults: an empty Addr defaults to
localhost:8787. -/
def Config.defaultAddr (cfg : Config) : Config :=
  if cfg.Addr = "" then { cfg with Addr := "localhost:8787" } else cfg

/-- Third statement of ApplyDefaults: an empty UIAddr defaults to
localhost:16823. -/
def Config.defaultUIAddr (cfg : Config) : Config :=
  if cfg.UIAddr = "" then { cfg with UIAddr := "localhost:16823" } else cfg

/-- Fourth statement of ApplyDefaults: an empty CloudConfig URL defaults
to the bundled cloud config URL. -/
def Config.defaultCloudConfigURL (cfg : Config) : Config :=
  if cfg.CloudConfig = "" then
    { cfg with CloudConfig := "https://config.getiantem.org/cloud.yaml.gz" } else cfg

/-- Fifth statement of ApplyDefaults: an empty InstanceId defaults to the
hex-encoded uuid node id, here the parameter nodeId. -/
def Config.defaultInstanceId (cfg : Config) (nodeId : String) : Config :=
  if cfg.InstanceId = "" then { cfg with InstanceId := nodeId } else cfg

/-- Sixth statement of ApplyDefaults: a nil Stats sub-config is replaced
by the zero statreporter.Config. -/
def Config.defaultStats (cfg : Config) : Config :=
  match cfg.Stats with
  | none => { cfg with Stats := some { StatshubAddr := "" } }
  | some _ => cfg

/-- Seventh statement of ApplyDefaults: an empty StatshubAddr defaults to
the *statshubAddr command-line flag, here the parameter
statshubAddrFlag. -/
def Config.defaultStatshubAddr (cfg : Config) (statshubAddrFlag : String) : Config :=
  match cfg.Stats with
  | some st =>
      if st.StatshubAddr = "" then
        { cfg with Stats := some { st with StatshubAddr := statshubAddrFlag } }
      else cfg
  | none => cfg

/-- ApplyDefaults (config.go): the sequence of defaulting statements
above, in source order, followed by the guarded client-only defaults.
nodeId stands for hex.EncodeToString(uuid.NodeID()) and statshubAddrFlag
for the *statshubAddr command-line flag, both external inputs.  The
client-only defaults run only when the Client sub-config is non-nil AND
the role is "client". -/
def Config.ApplyDefaults (cfg : Config) (nodeId statshubAddrFlag : String) : Config :=
  let cfg := cfg.defaultRole
  let cfg := cfg.defaultAddr
  let cfg := cfg.defaultUIAddr
  let cfg := cfg.defaultCloudConfigURL
  let cfg := cfg.defaultInstanceId nodeId
  let cfg := cfg.defaultStats
  let cfg := cfg.defaultStatshubAddr statshubAddrFlag
  if cfg.Client.isSome && cfg.Role == "client" then cfg.applyClientDefaults else cfg

/-- A concrete fronted relay server, used as the server A of the
end-to-end scenario and in sample snapshots. -/
def serverA : FrontedServerInfo :=
  { Host := "nl.fallbacks.getiantem.org", Port := 443, PoolSize := 30,
    MasqueradeSet := "cloudflare", MaxMasquerades := 20, QOS := 10, Weight := 4000 }

/-- A concrete poll URL. -/
def urlC : String := "http://cfg"

/-- A concrete local Config with a present Client sub-config. -/
def sampleLocal : Config :=
  { Version := 1, CloudConfig := urlC, CloudConfigCA := "", Addr := "localhost:8787",
    Role := "client", InstanceId := "instance-1", CpuProfile := "", MemProfile := "",
    UIAddr := "localhost:16823", AutoReport := some true, AutoLaunch := some false,
    Stats := some { StatshubAddr := "statshub" }, Server := none,
    Client := some { FrontedServers := [], ChainedServers := [], MasqueradeSets := [] },
    ProxiedSites := none, TrustedCAs := [] }

/-- The sample local Config with only a local-sourced field (the role)
changed. -/
def sampleLocal2 : Config :=
  { sampleLocal with Role := "server" }

/-- A concrete cloud snapshot carrying server A, one proxied site and one
trusted CA. -/
def sampleCloud : cloudConfig :=
  { Client := some { FrontedServers := [serverA], ChainedServers := [], MasqueradeSets := [] },
    ProxiedSites := some { Delta := some { Additions := [], Deletions := [] },
                           Cloud := ["example.org"] },
    TrustedCAs := [{ CommonName := "Root CA", Cert := "PEM-1" }] }

/-- The merged configuration of sampleLocal and sampleCloud. -/
def mergedSample : Config :=
  { sampleLocal with
    Client := some { FrontedServers := [serverA], ChainedServers := [], MasqueradeSets := [] },
    ProxiedSites := sampleCloud.ProxiedSites,
    TrustedCAs := sampleCloud.TrustedCAs }

/-- The merged configuration of sampleLocal2 and sampleCloud. -/
def mergedSample2 : Config :=
  { mergedSample with Role := "server" }

/-- The merged configuration of sampleLocal and emptyCloudConfig. -/
def mergedSampleEmpty : Config :=
  { sampleLocal with
    Client := some { FrontedServers := [], ChainedServers := [], MasqueradeSets := [] },
    ProxiedSites := emptyCloudConfig.ProxiedSites,
    TrustedCAs := [] }

/-- A concrete gunzip oracle: the wire bytes [1] decompress to [9], any
other body is invalid gzip. -/
def gunzipC : List Nat → Option (List Nat) :=
  fun b => if b == [1] then some [9] else none

/-- A concrete YAML oracle on which every document is malformed. -/
def yamlFailC : cloudConfig → List Nat → Option cloudConfig :=
  fun _ _ => none

/-- A concrete YAML oracle: the bytes [9] decode to a document whose
client section holds the single fronted server A. -/
def yamlC6 : cloudConfig → List Nat → Option cloudConfig :=
  fun base b =>
    if b == [9] then
      some { base with Client := some { FrontedServers := [serverA],
                                        ChainedServers := [], MasqueradeSets := [] } }
    else none

/-- The cloud snapshot yamlC6 produces from the bytes [9] over
emptyCloudConfig. -/
def cloudA : cloudConfig :=
  { emptyCloudConfig with
    Client := some { FrontedServers := [serverA], ChainedServers := [], MasqueradeSets := [] } }

/-- A 200 response with validation token v1 and wire body [1]. -/
def respV1 : HttpResponse :=
  { StatusCode := 200, etagHeader := "v1", Body := [1] }

/-- A 200 response with validation token v2 and wire body [1]. -/
def respV2 : HttpResponse :=
  { StatusCode := 200, etagHeader := "v2", Body := [1] }

/-- A 304 Not Modified response. -/
def resp304 : HttpResponse :=
  { StatusCode := 304, etagHeader := "", Body := [] }

/-- A pre-poll state whose ETag cache holds token v1 for the poll URL. -/
def pollStateV1 : PollState :=
  { localCfg := sampleLocal, cloudCfg := sampleCloud,
    lastCloudConfigETag := [(urlC, "v1")] }

/-- A fresh pre-poll state with an empty ETag cache and the built-in empty
cloud snapshot. -/
def pollStateFresh : PollState :=
  { localCfg := sampleLocal, cloudCfg := emptyCloudConfig, lastCloudConfigETag := [] }

/-- The first poll of the end-to-end scenario: 200, token v1, body
decoding to the fronted-server list [serverA]. -/
def pollOnceC6 : PollResult :=
  cloudPoll gunzipC yamlC6 id (some respV1) pollStateFresh

/-- The second poll of the end-to-end scenario: a 304 answer from the
state the first poll left. -/
def pollTwiceC6 : PollResult :=
  cloudPoll gunzipC yamlC6 id (some resp304) pollOnceC6.state

/-- A SetTrustedCAs model that always fails. -/
def setCAsFalse : List String → Bool :=
  fun _ => false

/-- A concrete Run-loop state. -/
def runStateC5 : RunState :=
  { localCfg := sampleLocal, cloudCfg := sampleCloud,
    globals := { InstanceId := "old-instance", trustedCAs := ["old-pem"] } }

/-- A Config whose role is client but whose Client sub-config is nil, with
the auto-report and auto-launch flags unset. -/
def cfgClientNil : Config :=
  { sampleLocal with
    Role := "client", Client := none, AutoReport := none, AutoLaunch := none }

/-- The role a Config has after the empty-role default of ApplyDefaults. -/
def defaultedRole (cfg : Config) : String :=
  if cfg.Role = "" then "client" else cfg.Role

/-- IsDownstream (config.go): the role string equals "client". -/
def Config.IsDownstream (cfg : Config) : Bool :=
  cfg.Role == "client"

/-- IsUpstream (config.go): the negation of IsDownstream. -/
def Config.IsUpstream (cfg : Config) : Bool :=
  !cfg.IsDownstream

theorem etagGet_etagSet (m : EtagMap) (url v : String) :
    etagGet (etagSet m url v) url = v := by
  induction m with
  | nil => simp [etagSet, etagGet]
  | cons hd tl ih =>
      obtain ⟨k, w⟩ := hd
      by_cases hk : k = url
      · simp [etagSet, etagGet, hk]
      · simp [etagSet, etagGet, hk, ih]

theorem fetchCloudConfig_requestHeaders
    (gunzip : List Nat → Option (List Nat)) (url : String)
    (respOpt : Option HttpResponse) (cache : EtagMap) :
    (fetchCloudConfig gunzip url respOpt cache).requestHeaders =
      if etagGet cache url ≠ "" then [(ifNoneMatch, etagGet cache url)] else [] := by
  unfold fetchCloudConfig
  cases respOpt with
  | none => rfl
  | some resp =>
      by_cases h3 : resp.StatusCode = 304
      · simp [h3]
      · by_cases h2 : resp.StatusCode = 200
        · simp [h3, h2]
          cases gunzip resp.Body <;> simp
        · simp [h3, h2]

theorem cloudPoll_requestHeaders
    (gunzip : List Nat → Option (List Nat))
    (yamlU : cloudConfig → List Nat → Option cloudConfig)
    (sortFS : ClientConfig → ClientConfig)
    (respOpt : Option HttpResponse) (s : PollState) :
    (cloudPoll gunzip yamlU sortFS respOpt s).requestHeaders =
      (fetchCloudConfig gunzip s.localCfg.CloudConfig respOpt
        s.lastCloudConfigETag).requestHeaders := by
  unfold cloudPoll
  cases ho : (fetchCloudConfig gunzip s.localCfg.CloudConfig respOpt
      s.lastCloudConfigETag).outcome with
  | error e => simp [ho]
  | ok ob =>
      cases ob with
      | none => simp [ho]
      | some b =>
          cases hfb : fromBytes yamlU emptyCloudConfig b <;> simp [ho, hfb]

theorem cloudPoll_304_state
    (gunzip : List Nat → Option (List Nat))
    (yamlU : cloudConfig → List Nat → Option cloudConfig)
    (sortFS : ClientConfig → ClientConfig)
    (resp : HttpResponse) (s : PollState)
    (h304 : resp.StatusCode = 304) :
    (cloudPoll gunzip yamlU sortFS (some resp) s).state = s ∧
    (cloudPoll gunzip yamlU sortFS (some resp) s).signaled = false := by
  unfold cloudPoll fetchCloudConfig
  simp [h304]

theorem mergedConfig_inv (l : Config) (c : cloudConfig) (m : Config)
    (h : mergedConfig l c = some m) :
    ∃ lc cc, l.Client = some lc ∧ c.Client = some cc ∧
      m = { l with
            Client := some { lc with
                              FrontedServers := cc.FrontedServers,
                              ChainedServers := cc.ChainedServers,
                              MasqueradeSets := cc.MasqueradeSets },
            ProxiedSites := c.ProxiedSites,
            TrustedCAs := c.TrustedCAs } := by
  cases hl : l.Client with
  | none => simp [mergedConfig, hl] at h
  | some lc =>
      cases hc : c.Client with
      | none => simp [mergedConfig, hl, hc] at h
      | some cc =>
          refine ⟨lc, cc, rfl, rfl, ?_⟩
          simp [mergedConfig, hl, hc] at h
          exact h.symm

/-- C1: mergedConfig sources every field from exactly one input per the
fixed precedence table — role, addresses, instance id, profiling, UI
address and stats from the local Config; fronted relay servers, chained
servers, masquerade sets, proxied sites and trusted CAs from the cloud
snapshot.  Consequently replacing the local Config by any other never
changes the cloud-sourced part of the merged result, and replacing the
cloud snapshot never changes the local-sourced part. -/
theorem mergedConfig_field_sourcing
    (l l2 : Config) (c c2 : cloudConfig) (m m12 m21 : Config)
    (h : mergedConfig l c = some m)
    (h12 : mergedConfig l2 c = some m12)
    (h21 : mergedConfig l c2 = some m21) :
    localPart m = localPart l ∧
    m.ProxiedSites = c.ProxiedSites ∧
    m.TrustedCAs = c.TrustedCAs ∧
    m.Client.map (fun cc => cc.FrontedServers) = c.Client.map (fun cc => cc.FrontedServers) ∧
    m.Client.map (fun cc => cc.ChainedServers) = c.Client.map (fun cc => cc.ChainedServers) ∧
    m.Client.map (fun cc => cc.MasqueradeSets) = c.Client.map (fun cc => cc.MasqueradeSets) ∧
    cloudPart m12 = cloudPart m ∧
    localPart m21 = localPart m := by
  obtain ⟨lc, cc, hl, hc, hm⟩ := mergedConfig_inv l c m h
  obtain ⟨lc2, cc2, hl2, hc2, hm12⟩ := mergedConfig_inv l2 c m12 h12
  obtain ⟨lc3, cc3, hl3, hc3, hm21⟩ := mergedConfig_inv l c2 m21 h21
  subst hm hm12 hm21
  rw [hc] at hc2
  have hcc2 : cc2 = cc := by injection hc2 with h2; exact h2.symm
  subst hcc2
  have hlc3 : lc3 = lc := by rw [hl] at hl3; injection hl3 with h3; exact h3.symm
  subst hlc3
  refine ⟨?_, rfl, rfl, ?_, ?_, ?_, ?_, ?_⟩ <;>
    simp [localPart, cloudPart, hc]

theorem mergedConfig_field_sourcing_witness :
    mergedConfig sampleLocal sampleCloud = some mergedSample ∧
    mergedConfig sampleLocal2 sampleCloud = some mergedSample2 ∧
    mergedConfig sampleLocal emptyCloudConfig = some mergedSampleEmpty ∧
    (localPart mergedSample = localPart sampleLocal ∧
     mergedSample.ProxiedSites = sampleCloud.ProxiedSites ∧
     mergedSample.TrustedCAs = sampleCloud.TrustedCAs ∧
     mergedSample.Client.map (fun cc => cc.FrontedServers) =
       sampleCloud.Client.map (fun cc => cc.FrontedServers) ∧
     mergedSample.Client.map (fun cc => cc.ChainedServers) =
       sampleCloud.Client.map (fun cc => cc.ChainedServers) ∧
     mergedSample.Client.map (fun cc => cc.MasqueradeSets) =
       sampleCloud.Client.map (fun cc => cc.MasqueradeSets) ∧
     cloudPart mergedSample2 = cloudPart mergedSample ∧
     localPart mergedSampleEmpty = localPart mergedSample) :=
  ⟨rfl, rfl, rfl,
   mergedConfig_field_sourcing sampleLocal sampleLocal2 sampleCloud emptyCloudConfig
     mergedSample mergedSample2 mergedSampleEmpty rfl rfl rfl⟩

/-- C2: the merge is pure, deterministic and idempotent — its state-passing
form leaves the two input slots untouched, and recomputing from the
resulting state yields an identical merged output. -/
theorem mergedConfig_pure_idempotent (s : SlotState) :
    (mergedConfigRun s).snd = s ∧
    (mergedConfigRun ((mergedConfigRun s).snd)).fst = (mergedConfigRun s).fst ∧
    (mergedConfigRun s).fst = mergedConfig s.localCfg s.cloudCfg :=
  ⟨rfl, rfl, rfl⟩

/-- C7: for every value drawn by rand.Int63n (so 0 ≤ r < interval), the
computed poll delay lies in the half-open interval
[interval/2, interval*1.5); for the 60-second base interval this is
[30s, 90s) in nanoseconds. -/
theorem cloudPollSleepTime_bounds (r : Int)
    (h0 : 0 ≤ r) (h1 : r < CloudConfigPollInterval) :
    CloudConfigPollInterval / 2 ≤ cloudPollSleepTime r ∧
    cloudPollSleepTime r < CloudConfigPollInterval + CloudConfigPollInterval / 2 ∧
    30000000000 ≤ cloudPollSleepTime r ∧
    cloudPollSleepTime r < 90000000000 := by
  unfold cloudPollSleepTime CloudConfigPollInterval at *
  omega

theorem cloudPollSleepTime_bounds_witness :
    (0:Int) ≤ 0 ∧ (0:Int) < CloudConfigPollInterval ∧
    (CloudConfigPollInterval / 2 ≤ cloudPollSleepTime 0 ∧
     cloudPollSleepTime 0 < CloudConfigPollInterval + CloudConfigPollInterval / 2 ∧
     30000000000 ≤ cloudPollSleepTime 0 ∧
     cloudPollSleepTime 0 < 90000000000) :=
  ⟨by decide, by decide, cloudPollSleepTime_bounds 0 (by decide) (by decide)⟩

/-- C9: on every 200 response, fetchCloudConfig overwrites the per-URL
ETag cache entry with the response's token before decompressing the body;
when the body is not valid gzip it returns an error, yet the cache entry
has already been updated — the cache update and the successful return of
bytes are not atomic. -/
theorem fetchCloudConfig_etag_before_gunzip
    (gunzip : List Nat → Option (List Nat)) (url : String)
    (resp : HttpResponse) (cache : EtagMap)
    (h200 : resp.StatusCode = 200) (hgz : gunzip resp.Body = none) :
    (fetchCloudConfig gunzip url (some resp) cache).outcome =
      Except.error "Unable to open gzip reader" ∧
    (fetchCloudConfig gunzip url (some resp) cache).cache =
      etagSet cache url resp.etagHeader ∧
    etagGet (fetchCloudConfig gunzip url (some resp) cache).cache url =
      resp.etagHeader := by
  unfold fetchCloudConfig
  simp [h200, hgz, etagGet_etagSet]

theorem fetchCloudConfig_etag_before_gunzip_witness :
    respV2.StatusCode = 200 ∧
    (fun (_ : List Nat) => (none : Option (List Nat))) respV2.Body = none ∧
    ((fetchCloudConfig (fun _ => none) urlC (some respV2) [(urlC, "v1")]).outcome =
       Except.error "Unable to open gzip reader" ∧
     (fetchCloudConfig (fun _ => none) urlC (some respV2) [(urlC, "v1")]).cache =
       etagSet [(urlC, "v1")] urlC respV2.etagHeader ∧
     etagGet (fetchCloudConfig (fun _ => none) urlC (some respV2) [(urlC, "v1")]).cache urlC =
       respV2.etagHeader) :=
  ⟨rfl, rfl, fetchCloudConfig_etag_before_gunzip (fun _ => none) urlC respV2
    [(urlC, "v1")] rfl rfl⟩

/-- C10: IsUpstream is the Boolean complement of IsDownstream, so every
role string other than "client" — not only "server" — is classified as
upstream. -/
theorem isUpstream_complement (cfg : Config) :
    cfg.IsUpstream = !cfg.IsDownstream ∧
    cfg.IsUpstream = !(cfg.Role == "client") :=
  ⟨rfl, rfl⟩

/-- C4: a poll whose HTTP response status is 304 short-circuits — no
publish signal is sent, and the whole poll state (stored CloudConfig,
per-URL ETag cache, local slot) is left exactly as it was. -/
theorem cloudPoll_304_short_circuit
    (gunzip : List Nat → Option (List Nat))
    (yamlU : cloudConfig → List Nat → Option cloudConfig)
    (sortFS : ClientConfig → ClientConfig)
    (resp : HttpResponse) (s : PollState)
    (h304 : resp.StatusCode = 304) :
    (cloudPoll gunzip yamlU sortFS (some resp) s).state = s ∧
    (cloudPoll gunzip yamlU sortFS (some resp) s).signaled = false :=
  cloudPoll_304_state gunzip yamlU sortFS resp s h304

theorem cloudPoll_304_short_circuit_witness :
    resp304.StatusCode = 304 ∧
    ((cloudPoll gunzipC yamlFailC id (some resp304) pollStateV1).state = pollStateV1 ∧
     (cloudPoll gunzipC yamlFailC id (some resp304) pollStateV1).signaled = false) :=
  ⟨rfl, cloudPoll_304_short_circuit gunzipC yamlFailC id resp304 pollStateV1 rfl⟩

theorem cloudPoll_malformed_etag_counterexample :
    respV2.StatusCode = 200 ∧
    gunzipC respV2.Body = some [9] ∧
    yamlFailC emptyCloudConfig [9] = none ∧
    etagGet pollStateV1.lastCloudConfigETag urlC = "v1" ∧
    pollStateV1.localCfg.CloudConfig = urlC ∧
    (cloudPoll gunzipC yamlFailC id (some respV2) pollStateV1).state.cloudCfg =
      pollStateV1.cloudCfg ∧
    (cloudPoll gunzipC yamlFailC id (some respV2) pollStateV1).signaled = false ∧
    etagGet (cloudPoll gunzipC yamlFailC id
      (some respV2) pollStateV1).state.lastCloudConfigETag urlC = "v2" := by
  refine ⟨rfl, rfl, rfl, rfl, rfl, rfl, rfl, rfl⟩

/-- C3 (amended): a poll cycle whose fetched document is malformed YAML
after a 200 response leaves the stored CloudConfig, the local slot and
hence the merged snapshot bit-identical to their pre-poll values and sends
no publish signal — but the per-URL ETag cache entry has already been
overwritten with the 200 response's token by fetchCloudConfig. -/
theorem cloudPoll_malformed_retains_snapshot
    (gunzip : List Nat → Option (List Nat))
    (yamlU : cloudConfig → List Nat → Option cloudConfig)
    (sortFS : ClientConfig → ClientConfig)
    (resp : HttpResponse) (s : PollState) (y : List Nat)
    (h200 : resp.StatusCode = 200)
    (hgz : gunzip resp.Body = some y)
    (hyaml : yamlU emptyCloudConfig y = none) :
    (cloudPoll gunzip yamlU sortFS (some resp) s).state.cloudCfg = s.cloudCfg ∧
    (cloudPoll gunzip yamlU sortFS (some resp) s).signaled = false ∧
    (cloudPoll gunzip yamlU sortFS (some resp) s).state.localCfg = s.localCfg ∧
    mergedConfig (cloudPoll gunzip yamlU sortFS (some resp) s).state.localCfg
        (cloudPoll gunzip yamlU sortFS (some resp) s).state.cloudCfg =
      mergedConfig s.localCfg s.cloudCfg ∧
    (cloudPoll gunzip yamlU sortFS (some resp) s).state.lastCloudConfigETag =
      etagSet s.lastCloudConfigETag s.localCfg.CloudConfig resp.etagHeader := by
  unfold cloudPoll fetchCloudConfig fromBytes
  simp [h200, hgz, hyaml]

theorem cloudPoll_malformed_retains_snapshot_witness :
    respV2.StatusCode = 200 ∧
    gunzipC respV2.Body = some [9] ∧
    yamlFailC emptyCloudConfig [9] = none ∧
    ((cloudPoll gunzipC yamlFailC id (some respV2) pollStateV1).state.cloudCfg =
       pollStateV1.cloudCfg ∧
     (cloudPoll gunzipC yamlFailC id (some respV2) pollStateV1).signaled = false ∧
     (cloudPoll gunzipC yamlFailC id (some respV2) pollStateV1).state.localCfg =
       pollStateV1.localCfg ∧
     mergedConfig (cloudPoll gunzipC yamlFailC id (some respV2) pollStateV1).state.localCfg
         (cloudPoll gunzipC yamlFailC id (some respV2) pollStateV1).state.cloudCfg =
       mergedConfig pollStateV1.localCfg pollStateV1.cloudCfg ∧
     (cloudPoll gunzipC yamlFailC id (some respV2) pollStateV1).state.lastCloudConfigETag =
       etagSet pollStateV1.lastCloudConfigETag pollStateV1.localCfg.CloudConfig
         respV2.etagHeader) :=
  ⟨rfl, rfl, rfl,
   cloudPoll_malformed_retains_snapshot gunzipC yamlFailC id respV2 pollStateV1 [9]
     rfl rfl rfl⟩

theorem run_failure_terminates_counterexample :
    (updateGlobals setCAsFalse runStateC5.globals mergedSample).snd =
      some "Unable to configure trusted CAs" ∧
    mergedConfig runStateC5.localCfg runStateC5.cloudCfg = some mergedSample ∧
    (runStep setCAsFalse runStateC5 RunSignal.cloudChanged).isReturned = true ∧
    (runStep setCAsFalse runStateC5 RunSignal.cloudChanged).published = false := by
  refine ⟨rfl, rfl, rfl, rfl⟩

/-- C5 (amended): whenever updateGlobals fails while Run is processing a
local-change or cloud-change signal, the update handler is not invoked, so
the previous snapshot remains the last one published — but the loop does
not return to idle: Run returns the error to its caller and the
publication loop terminates. -/
theorem runStep_updateGlobals_failure
    (setCAsOk : List String → Bool) (s : RunState) (sig : RunSignal) (cfg : Config)
    (hm : mergedConfig (applySignal s sig).localCfg (applySignal s sig).cloudCfg = some cfg)
    (hf : setCAsOk cfg.TrustedCACerts = false) :
    runStep setCAsOk s sig =
      RunStepResult.returned "Unable to configure trusted CAs"
        { applySignal s sig with
          globals := { (applySignal s sig).globals with InstanceId := cfg.InstanceId } } ∧
    (runStep setCAsOk s sig).published = false := by
  unfold runStep updateGlobals
  simp [hm, hf, RunStepResult.published]

theorem runStep_updateGlobals_failure_witness :
    mergedConfig (applySignal runStateC5 RunSignal.cloudChanged).localCfg
        (applySignal runStateC5 RunSignal.cloudChanged).cloudCfg = some mergedSample ∧
    setCAsFalse mergedSample.TrustedCACerts = false ∧
    (runStep setCAsFalse runStateC5 RunSignal.cloudChanged =
       RunStepResult.returned "Unable to configure trusted CAs"
         { applySignal runStateC5 RunSignal.cloudChanged with
           globals := { (applySignal runStateC5 RunSignal.cloudChanged).globals with
                        InstanceId := mergedSample.InstanceId } } ∧
     (runStep setCAsFalse runStateC5 RunSignal.cloudChanged).published = false) :=
  ⟨rfl, rfl,
   runStep_updateGlobals_failure setCAsFalse runStateC5 RunSignal.cloudChanged
     mergedSample rfl rfl⟩

theorem conditional_fetch_header_counterexample :
    respV1.StatusCode = 200 ∧ respV1.etagHeader = "v1" ∧
    resp304.StatusCode = 304 ∧
    lookupHeader pollTwiceC6.requestHeaders "If-None-Match" = none ∧
    lookupHeader pollTwiceC6.requestHeaders ifNoneMatch = some "v1" ∧
    ifNoneMatch ≠ "If-None-Match" := by
  refine ⟨rfl, rfl, rfl, rfl, rfl, by decide⟩

/-- C6 (amended): in the end-to-end scenario — first poll answered 200
with token v1 and a body decoding successfully, second poll answered
304 — the second request carries the last-seen validation token in the
X-Lantern-If-None-Match header (not the standard If-None-Match), and the
304 leaves the whole poll state, hence the merged relay-server list,
unchanged. -/
theorem conditional_fetch_scenario
    (gunzip : List Nat → Option (List Nat))
    (yamlU : cloudConfig → List Nat → Option cloudConfig)
    (sortFS : ClientConfig → ClientConfig)
    (respA respB : HttpResponse) (s : PollState) (y : List Nat) (cc : cloudConfig)
    (hA : respA.StatusCode = 200) (hAe : respA.etagHeader = "v1")
    (hgz : gunzip respA.Body = some y)
    (hyaml : yamlU emptyCloudConfig y = some cc)
    (hB : respB.StatusCode = 304) :
    lookupHeader (cloudPoll gunzip yamlU sortFS (some respB)
        (cloudPoll gunzip yamlU sortFS (some respA) s).state).requestHeaders
      ifNoneMatch = some "v1" ∧
    (cloudPoll gunzip yamlU sortFS (some respB)
        (cloudPoll gunzip yamlU sortFS (some respA) s).state).state =
      (cloudPoll gunzip yamlU sortFS (some respA) s).state ∧
    mergedConfig (cloudPoll gunzip yamlU sortFS (some respB)
          (cloudPoll gunzip yamlU sortFS (some respA) s).state).state.localCfg
        (cloudPoll gunzip yamlU sortFS (some respB)
          (cloudPoll gunzip yamlU sortFS (some respA) s).state).state.cloudCfg =
      mergedConfig (cloudPoll gunzip yamlU sortFS (some respA) s).state.localCfg
        (cloudPoll gunzip yamlU sortFS (some respA) s).state.cloudCfg := by
  have hfirst :
      (cloudPoll gunzip yamlU sortFS (some respA) s).state.localCfg = s.localCfg ∧
      (cloudPoll gunzip yamlU sortFS (some respA) s).state.lastCloudConfigETag =
        etagSet s.lastCloudConfigETag s.localCfg.CloudConfig respA.etagHeader := by
    unfold cloudPoll fetchCloudConfig fromBytes
    simp [hA, hgz, hyaml]
  obtain ⟨hloc, hcache⟩ := hfirst
  have hshort := cloudPoll_304_state gunzip yamlU sortFS respB
    (cloudPoll gunzip yamlU sortFS (some respA) s).state hB
  refine ⟨?_, hshort.left, by rw [hshort.left]⟩
  rw [cloudPoll_requestHeaders, fetchCloudConfig_requestHeaders, hloc, hcache, hAe,
    etagGet_etagSet]
  simp [lookupHeader]

theorem conditional_fetch_scenario_witness :
    respV1.StatusCode = 200 ∧ respV1.etagHeader = "v1" ∧
    gunzipC respV1.Body = some [9] ∧
    yamlC6 emptyCloudConfig [9] = some cloudA ∧
    resp304.StatusCode = 304 ∧
    (lookupHeader (cloudPoll gunzipC yamlC6 id (some resp304)
        (cloudPoll gunzipC yamlC6 id (some respV1) pollStateFresh).state).requestHeaders
       ifNoneMatch = some "v1" ∧
     (cloudPoll gunzipC yamlC6 id (some resp304)
         (cloudPoll gunzipC yamlC6 id (some respV1) pollStateFresh).state).state =
       (cloudPoll gunzipC yamlC6 id (some respV1) pollStateFresh).state ∧
     mergedConfig (cloudPoll gunzipC yamlC6 id (some resp304)
           (cloudPoll gunzipC yamlC6 id (some respV1) pollStateFresh).state).state.localCfg
         (cloudPoll gunzipC yamlC6 id (some resp304)
           (cloudPoll gunzipC yamlC6 id (some respV1) pollStateFresh).state).state.cloudCfg =
       mergedConfig (cloudPoll gunzipC yamlC6 id (some respV1) pollStateFresh).state.localCfg
         (cloudPoll gunzipC yamlC6 id (some respV1) pollStateFresh).state.cloudCfg) :=
  ⟨rfl, rfl, rfl, rfl, rfl,
   conditional_fetch_scenario gunzipC yamlC6 id respV1 resp304 pollStateFresh [9] cloudA
     rfl rfl rfl rfl rfl⟩

theorem defaultRole_fields (cfg : Config) :
    cfg.defaultRole.Role = defaultedRole cfg ∧
    cfg.defaultRole.Client = cfg.Client ∧
    cfg.defaultRole.AutoReport = cfg.AutoReport ∧
    cfg.defaultRole.AutoLaunch = cfg.AutoLaunch := by
  unfold Config.defaultRole
  by_cases h : cfg.Role = "" <;> simp [defaultedRole, h]

theorem defaultAddr_fields (cfg : Config) :
    cfg.defaultAddr.Role = cfg.Role ∧
    cfg.defaultAddr.Client = cfg.Client ∧
    cfg.defaultAddr.AutoReport = cfg.AutoReport ∧
    cfg.defaultAddr.AutoLaunch = cfg.AutoLaunch := by
  unfold Config.defaultAddr
  split <;> simp

theorem defaultUIAddr_fields (cfg : Config) :
    cfg.defaultUIAddr.Role = cfg.Role ∧
    cfg.defaultUIAddr.Client = cfg.Client ∧
    cfg.defaultUIAddr.AutoReport = cfg.AutoReport ∧
    cfg.defaultUIAddr.AutoLaunch = cfg.AutoLaunch := by
  unfold Config.defaultUIAddr
  split <;> simp

theorem defaultCloudConfigURL_fields (cfg : Config) :
    cfg.defaultCloudConfigURL.Role = cfg.Role ∧
    cfg.defaultCloudConfigURL.Client = cfg.Client ∧
    cfg.defaultCloudConfigURL.AutoReport = cfg.AutoReport ∧
    cfg.defaultCloudConfigURL.AutoLaunch = cfg.AutoLaunch := by
  unfold Config.defaultCloudConfigURL
  split <;> simp

theorem defaultInstanceId_fields (cfg : Config) (nodeId : String) :
    (cfg.defaultInstanceId nodeId).Role = cfg.Role ∧
    (cfg.defaultInstanceId nodeId).Client = cfg.Client ∧
    (cfg.defaultInstanceId nodeId).AutoReport = cfg.AutoReport ∧
    (cfg.defaultInstanceId nodeId).AutoLaunch = cfg.AutoLaunch := by
  unfold Config.defaultInstanceId
  split <;> simp

theorem defaultStats_fields (cfg : Config) :
    cfg.defaultStats.Role = cfg.Role ∧
    cfg.defaultStats.Client = cfg.Client ∧
    cfg.defaultStats.AutoReport = cfg.AutoReport ∧
    cfg.defaultStats.AutoLaunch = cfg.AutoLaunch := by
  unfold Config.defaultStats
  split <;> simp

theorem defaultStatshubAddr_fields (cfg : Config) (flag : String) :
    (cfg.defaultStatshubAddr flag).Role = cfg.Role ∧
    (cfg.defaultStatshubAddr flag).Client = cfg.Client ∧
    (cfg.defaultStatshubAddr flag).AutoReport = cfg.AutoReport ∧
    (cfg.defaultStatshubAddr flag).AutoLaunch = cfg.AutoLaunch := by
  unfold Config.defaultStatshubAddr
  split <;> (try split) <;> simp

theorem applyClientDefaults_fields (cfg : Config) :
    cfg.applyClientDefaults.AutoReport = some (cfg.AutoReport.getD true) ∧
    cfg.applyClientDefaults.AutoLaunch = some (cfg.AutoLaunch.getD false) := by
  unfold Config.applyClientDefaults
  cases h : cfg.AutoReport <;> cases h2 : cfg.AutoLaunch <;> simp [h, h2]

theorem applyDefaults_clientnil_counterexample :
    cfgClientNil.Role = "client" ∧
    cfgClientNil.AutoReport = none ∧ cfgClientNil.AutoLaunch = none ∧
    (cfgClientNil.ApplyDefaults "node-id" "statshub-addr").AutoReport = none ∧
    (cfgClientNil.ApplyDefaults "node-id" "statshub-addr").AutoLaunch = none := by
  refine ⟨rfl, rfl, rfl, rfl, rfl⟩

/-- C8 (amended): ApplyDefaults applies the client-only defaults exactly
when the role (after empty-role defaulting) is "client" AND the Client
sub-config is present: then AutoReport defaults to true and AutoLaunch to
false when unset.  In every other case — a client-role Config with a nil
Client sub-config just as much as a "server" Config — both flags are left
untouched. -/
theorem applyDefaults_client_only_defaults
    (cfg : Config) (nodeId statshubAddrFlag : String) :
    (cfg.ApplyDefaults nodeId statshubAddrFlag).AutoReport =
      (if cfg.Client.isSome = true ∧ defaultedRole cfg = "client"
       then some (cfg.AutoReport.getD true) else cfg.AutoReport) ∧
    (cfg.ApplyDefaults nodeId statshubAddrFlag).AutoLaunch =
      (if cfg.Client.isSome = true ∧ defaultedRole cfg = "client"
       then some (cfg.AutoLaunch.getD false) else cfg.AutoLaunch) := by
  simp only [Config.ApplyDefaults, applyClientDefaults_fields,
    defaultStatshubAddr_fields, defaultStats_fields, defaultInstanceId_fields,
    defaultCloudConfigURL_fields, defaultUIAddr_fields, defaultAddr_fields,
    defaultRole_fields, apply_ite Config.AutoReport, apply_ite Config.AutoLaunch,
    Bool.and_eq_true, beq_iff_eq]
  exact ⟨trivial, trivial⟩

end Lantern
